import Mathlib

/-!
Shallow embedding of `src/main/GS_2semestre_STR.c` (ESP32/FreeRTOS Wi-Fi
monitor): the secure-network registry and its query function, the Scanner,
Checker, Logger and Supervisor task bodies, the bounded FreeRTOS queues, the
mutex/watchdog interaction traces, and the task-creation table of `app_main`.
C strings are modelled as Lean `String`s (byte counts via `utf8ByteSize`),
machine integers as `Nat`, and the blocking/queueing primitives as explicit
state passing.
-/

namespace GS

/-! ### Configuration constants (lines 25-27) -/

def MAX_SSIDS : Nat := 5

def LOG_QUEUE_SIZE : Nat := 10

def SSID_QUEUE_SIZE : Nat := 10

/-! ### Payload types (lines 29-35).
`SSID_t` is a 32-byte `char` buffer, `LogMessage_t` a 128-byte `char` buffer;
here each carries the string stored in the buffer. -/

structure SSID_t where
  ssid : String
deriving DecidableEq, Repr

structure LogMessage_t where
  message : String
deriving DecidableEq, Repr

/-! ### The secure-network registry (lines 41-43) -/

def secureNetworks : List String :=
  ["IoT_Secure", "LabNet_Protected", "HomeNet_5G", "OfficeNet", "GuestNet"]

/-! ### `is_secure_network` (lines 46-57).
The C function takes the mutex, scans the array with `strcmp`, breaks on the
first match, gives the mutex back and returns 0/1.  `is_secure_network_loop`
is the scan loop (with its early exit); the lock behaviour is modelled
separately by `is_secure_network_trace` below. -/

def is_secure_network_loop (ssid : String) : List String → Nat
  | [] => 0
  | entry :: rest => if ssid = entry then 1 else is_secure_network_loop ssid rest

def is_secure_network (ssid : String) : Nat :=
  is_secure_network_loop ssid secureNetworks

theorem is_secure_network_loop_eq (ssid : String) (l : List String) :
    is_secure_network_loop ssid l = if ssid ∈ l then 1 else 0 := by
  induction l with
  | nil => simp [is_secure_network_loop]
  | cons e rest ih =>
      by_cases h : ssid = e
      · simp [is_secure_network_loop, h]
      · simp [is_secure_network_loop, h, ih, List.mem_cons]

theorem is_secure_network_eq (ssid : String) :
    is_secure_network ssid = if ssid ∈ secureNetworks then 1 else 0 :=
  is_secure_network_loop_eq ssid secureNetworks

/-! ### Lock/registry-access trace of `is_secure_network` (lines 46-57).
The function body is `xSemaphoreTake`; a loop reading `secureNetworks[i]`
(breaking on the first match); `xSemaphoreGive`; `return`.  `scanReads`
lists the registry reads the loop performs (respecting the early exit) and
`is_secure_network_trace` is the full ordered action sequence. -/

inductive LockAction where
  | takeMutex : LockAction
  | readEntry : Nat → String → LockAction
  | giveMutex : LockAction
deriving DecidableEq, Repr

def scanReads (ssid : String) : Nat → List String → List LockAction
  | _, [] => []
  | i, entry :: rest =>
      LockAction.readEntry i entry ::
        (if ssid = entry then [] else scanReads ssid (i + 1) rest)

def is_secure_network_trace (ssid : String) : List LockAction :=
  LockAction.takeMutex :: (scanReads ssid 0 secureNetworks ++ [LockAction.giveMutex])

theorem scanReads_only_reads (ssid : String) (i : Nat) (l : List String) :
    ∀ a ∈ scanReads ssid i l, ∃ j e, a = LockAction.readEntry j e := by
  induction l generalizing i with
  | nil => simp [scanReads]
  | cons entry rest ih =>
      intro a ha
      by_cases h : ssid = entry
      · simp [scanReads, h] at ha
        exact ⟨i, entry, ha⟩
      · simp [scanReads, h] at ha
        rcases ha with ha | ha
        · exact ⟨i, entry, ha⟩
        · exact ih (i + 1) a ha

/-- C4: in every call to `is_secure_network` the mutex is taken before any
registry entry is read, every registry read happens strictly between the
take and the single give, and the give is the last action before returning
on every exit path (match found early or full scan). -/
theorem C4_mutex_discipline (s : String) :
    (is_secure_network_trace s).head? = some LockAction.takeMutex ∧
    (is_secure_network_trace s).getLast? = some LockAction.giveMutex ∧
    (is_secure_network_trace s).count LockAction.takeMutex = 1 ∧
    (is_secure_network_trace s).count LockAction.giveMutex = 1 ∧
    (∃ reads, is_secure_network_trace s =
        LockAction.takeMutex :: (reads ++ [LockAction.giveMutex]) ∧
      ∀ a ∈ reads, ∃ j e, a = LockAction.readEntry j e) := by
  refine ⟨rfl, ?_, ?_, ?_, scanReads s 0 secureNetworks, rfl,
    scanReads_only_reads s 0 secureNetworks⟩
  · rw [is_secure_network_trace, ← List.cons_append]
    exact List.getLast?_concat _
  · have h := scanReads_only_reads s 0 secureNetworks
    simp only [is_secure_network_trace, List.count_cons, List.count_append]
    have : (scanReads s 0 secureNetworks).count LockAction.takeMutex = 0 := by
      rw [List.count_eq_zero]
      intro hmem
      rcases h _ hmem with ⟨j, e, he⟩
      cases he
    simp [this]
  · have h := scanReads_only_reads s 0 secureNetworks
    simp only [is_secure_network_trace, List.count_cons, List.count_append]
    have : (scanReads s 0 secureNetworks).count LockAction.giveMutex = 0 := by
      rw [List.count_eq_zero]
      intro hmem
      rcases h _ hmem with ⟨j, e, he⟩
      cases he
    simp [this]

/-- C1: `is_secure_network` returns 1 exactly on the five registry entries,
0 on every other string, with no error outcome (its result is always 0 or 1). -/
theorem C1_is_secure_network_membership (s : String) :
    (is_secure_network s = 1 ↔ s ∈ secureNetworks) ∧
    (is_secure_network s = 0 ↔ s ∉ secureNetworks) ∧
    secureNetworks.length = 5 := by
  refine ⟨?_, ?_, rfl⟩ <;> rw [is_secure_network_eq] <;> by_cases h : s ∈ secureNetworks <;>
    simp [h]

/-! ### CheckerTask (lines 74-95).
Per received event the task classifies the SSID with `is_secure_network`,
formats a message with `snprintf` (either the `[OK]` or the `[ALERTA]` text,
the latter after incrementing the `static int alertCounter` and embedding it
via `%d`), and sends the record to `logQueue`.  `printf`'s `%d` rendering of
the non-negative counter is modelled by `Nat.repr`. -/

def okMessage (ssid : String) : String :=
  "\x7bChecker\x7d [OK] Rede segura detectada: " ++ ssid

def alertMessage (ssid : String) (cnt : Nat) : String :=
  "\x7bChecker\x7d [ALERTA] Rede NÃO autorizada detectada: " ++ ssid ++
    " (cont=" ++ Nat.repr cnt ++ ")"

/-- One body iteration of CheckerTask after `xQueueReceive` yields an event:
returns the updated `alertCounter` and the `LogMessage_t` built for the event.
The C condition is `if (is_secure_network(...))`, i.e. nonzero. -/
def checkerStep (cnt : Nat) (ssid : String) : Nat × LogMessage_t :=
  if is_secure_network ssid ≠ 0 then (cnt, ⟨okMessage ssid⟩)
  else (cnt + 1, ⟨alertMessage ssid (cnt + 1)⟩)

/-- CheckerTask over a finite sequence of delivered events: final
`alertCounter` and the list of produced records, in delivery order.
The counter starts at 0 (`static int alertCounter = 0`). -/
def checkerRun : Nat → List String → Nat × List LogMessage_t
  | cnt, [] => (cnt, [])
  | cnt, s :: rest =>
      (( checkerRun (checkerStep cnt s).1 rest).1,
        (checkerStep cnt s).2 :: (checkerRun (checkerStep cnt s).1 rest).2)

theorem checkerStep_mem {s : String} (h : s ∈ secureNetworks) (cnt : Nat) :
    checkerStep cnt s = (cnt, ⟨okMessage s⟩) := by
  simp [checkerStep, is_secure_network_eq, h]

theorem checkerStep_not_mem {s : String} (h : s ∉ secureNetworks) (cnt : Nat) :
    checkerStep cnt s = (cnt + 1, ⟨alertMessage s (cnt + 1)⟩) := by
  simp [checkerStep, is_secure_network_eq, h]

/-- C2: over any delivered event sequence, Checker produces exactly one
record per event, in delivery order: the k-th record is the `[OK]` record of
the k-th event when its identifier is in the registry, and an `[ALERTA]`
record of the k-th event otherwise. -/
theorem C2_one_record_per_event_in_order (cnt : Nat) (es : List String) :
    (checkerRun cnt es).2.length = es.length ∧
    ∀ (k : Nat) (s : String), es[k]? = some s →
      (s ∈ secureNetworks →
        ((checkerRun cnt es).2)[k]? = some (LogMessage_t.mk (okMessage s))) ∧
      (s ∉ secureNetworks →
        ∃ c, ((checkerRun cnt es).2)[k]? = some (LogMessage_t.mk (alertMessage s c))) := by
  induction es generalizing cnt with
  | nil => simp [checkerRun]
  | cons e rest ih =>
      refine ⟨by simp [checkerRun, (ih (checkerStep cnt e).1).1], ?_⟩
      intro k s hk
      cases k with
      | zero =>
          simp only [List.getElem?_cons_zero, Option.some.injEq] at hk
          subst hk
          constructor
          · intro hmem
            simp [checkerRun, checkerStep_mem hmem]
          · intro hmem
            exact ⟨cnt + 1, by simp [checkerRun, checkerStep_not_mem hmem]⟩
      | succ k =>
          simp only [List.getElem?_cons_succ] at hk
          have h2 := ((ih (checkerStep cnt e).1).2 k s hk)
          constructor
          · intro hmem
            simpa [checkerRun] using h2.1 hmem
          · intro hmem
            rcases h2.2 hmem with ⟨c, hc⟩
            exact ⟨c, by simpa [checkerRun] using hc⟩

/-- The record list the spec describes: `[OK]` for registry members,
`[ALERTA]` embedding the running 1-based alert index otherwise.  This is the
spec-side definition that `checkerRun` is compared against. -/
def specRecords : Nat → List String → List LogMessage_t
  | _, [] => []
  | alerts, s :: rest =>
      if s ∈ secureNetworks then ⟨okMessage s⟩ :: specRecords alerts rest
      else ⟨alertMessage s (alerts + 1)⟩ :: specRecords (alerts + 1) rest

theorem checkerRun_eq_spec (cnt : Nat) (es : List String) :
    (checkerRun cnt es).1 = cnt + es.countP (fun s => decide (s ∉ secureNetworks)) ∧
    (checkerRun cnt es).2 = specRecords cnt es := by
  induction es generalizing cnt with
  | nil => simp [checkerRun, specRecords]
  | cons e rest ih =>
      by_cases hmem : e ∈ secureNetworks
      · have h := ih cnt
        constructor
        · simp [checkerRun, checkerStep_mem hmem, h.1, List.countP_cons, hmem]
        · simp [checkerRun, specRecords, checkerStep_mem hmem, h.2, hmem]
      · have h := ih (cnt + 1)
        constructor
        · simp only [checkerRun, checkerStep_not_mem hmem, h.1, List.countP_cons]
          simp [hmem]
          omega
        · simp [checkerRun, specRecords, checkerStep_not_mem hmem, h.2, hmem]

/-- C3: `alertCounter` starts at 0, after any event sequence equals the
number of events not in the registry (incremented exactly once per
unauthorized event, never decreased or reset: the final value from any
starting value `c` is `c` plus that count, hence never below `c`), and the
records are exactly the spec records in which the i-th alert embeds the
running count i. -/
theorem C3_alert_counter (es : List String) (c : Nat) :
    (checkerRun 0 es).1 = es.countP (fun s => decide (s ∉ secureNetworks)) ∧
    (checkerRun 0 es).2 = specRecords 0 es ∧
    (checkerRun c es).1 = c + es.countP (fun s => decide (s ∉ secureNetworks)) ∧
    c ≤ (checkerRun c es).1 := by
  have h0 := checkerRun_eq_spec 0 es
  have hc := checkerRun_eq_spec c es
  refine ⟨by simpa using h0.1, h0.2, hc.1, ?_⟩
  omega

/-! ### FreeRTOS queue send (used at lines 67 and 89).
`xQueueSend(q, item, wait)` on a bounded queue: if after the bounded wait the
queue still has room the item is appended and `pdPASS` (`true`) is returned;
if it is full the item is dropped, the queue is unchanged and `errQUEUE_FULL`
(`false`) is returned.  Both call sites ignore the return value. -/

def xQueueSend {α : Type} (q : List α) (cap : Nat) (x : α) : List α × Bool :=
  if q.length < cap then (q ++ [x], true) else (q, false)

/-! ### ScannerTask (lines 60-71).
Each cycle copies `demoSSIDs[idx % 6]` into the event, sends it to
`ssidQueue` with a 50 ms bounded wait, increments `idx` unconditionally and
sleeps 500 ms. -/

def demoSSIDs : List String :=
  ["IoT_Secure", "EvilTwin", "RandomAP", "LabNet_Protected", "Unknown_AP", "HomeNet_5G"]

def SCANNER_DELAY_MS : Nat := 500

def CHECKER_DELAY_MS : Nat := 5

def SUPERVISOR_DELAY_MS : Nat := 1000

def ENQUEUE_WAIT_MS : Nat := 50

structure ScannerState where
  idx : Nat
  queue : List SSID_t
deriving DecidableEq, Repr

/-- The identifier ScannerTask observes in the cycle starting from state
`st`: `demoSSIDs[idx % 6]`. -/
def scannerObserve (st : ScannerState) : String :=
  demoSSIDs.getD (st.idx % 6) ""

/-- One full ScannerTask cycle: build the event, attempt the enqueue
(possibly dropping on a full queue), increment `idx`. -/
def scannerStep (st : ScannerState) : ScannerState :=
  { idx := st.idx + 1,
    queue := (xQueueSend st.queue SSID_QUEUE_SIZE (SSID_t.mk (scannerObserve st))).1 }

theorem scannerStep_idx (st : ScannerState) : (scannerStep st).idx = st.idx + 1 := rfl

theorem scannerStep_iterate_idx (k : Nat) (st : ScannerState) :
    (scannerStep^[k] st).idx = st.idx + k := by
  induction k with
  | zero => rfl
  | succ k ih =>
      rw [Function.iterate_succ_apply', scannerStep_idx, ih]
      omega

/-- C7: on its k-th cycle (from `idx = 0`, any initial queue content) Scanner
observes exactly `demoSSIDs[k % 6]`; `idx` advances by exactly one per cycle
whatever the enqueue outcome, and the inter-cycle sleep is the fixed 500 ms. -/
theorem C7_scanner_demo_sequence (k : Nat) (q : List SSID_t) :
    scannerObserve (scannerStep^[k] (ScannerState.mk 0 q)) = demoSSIDs.getD (k % 6) "" ∧
    (∀ st : ScannerState, (scannerStep st).idx = st.idx + 1) ∧
    SCANNER_DELAY_MS = 500 ∧ demoSSIDs.length = 6 := by
  refine ⟨?_, fun st => rfl, rfl, rfl⟩
  rw [scannerObserve, scannerStep_iterate_idx]
  simp

/-- C6: enqueueing onto a full `ssidQueue` or full `logQueue` after the 50 ms
bounded wait drops the item, leaves the queue unchanged and merely returns
`false` (both call sites discard that result, so no error propagates); the
Scanner cycle still completes, advancing `idx`, so the next cycle produces
the next event. -/
theorem C6_queue_full_drop (q : List SSID_t) (x : SSID_t)
    (lq : List LogMessage_t) (m : LogMessage_t) (st : ScannerState)
    (hq : SSID_QUEUE_SIZE ≤ q.length) (hlq : LOG_QUEUE_SIZE ≤ lq.length) :
    xQueueSend q SSID_QUEUE_SIZE x = (q, false) ∧
    xQueueSend lq LOG_QUEUE_SIZE m = (lq, false) ∧
    (scannerStep (ScannerState.mk st.idx q)).idx = st.idx + 1 ∧
    (scannerStep (ScannerState.mk st.idx q)).queue = q ∧
    ENQUEUE_WAIT_MS = 50 := by
  have h1 : ∀ y : SSID_t, xQueueSend q SSID_QUEUE_SIZE y = (q, false) := by
    intro y
    rw [xQueueSend, if_neg (by omega)]
  have h2 : xQueueSend lq LOG_QUEUE_SIZE m = (lq, false) := by
    rw [xQueueSend, if_neg (by omega)]
  refine ⟨h1 x, h2, rfl, ?_, rfl⟩
  simp [scannerStep, h1]

/-- Closed witness for `C6_queue_full_drop`: both queues at their capacity
of 10. -/
theorem C6_queue_full_drop_witness :
    xQueueSend (List.replicate 10 (SSID_t.mk "x")) SSID_QUEUE_SIZE (SSID_t.mk "y") =
      (List.replicate 10 (SSID_t.mk "x"), false) ∧
    (scannerStep (ScannerState.mk 7 (List.replicate 10 (SSID_t.mk "x")))).idx = 8 :=
  ⟨(C6_queue_full_drop (List.replicate 10 (SSID_t.mk "x")) (SSID_t.mk "y")
      (List.replicate 10 (LogMessage_t.mk "m")) (LogMessage_t.mk "m")
      (ScannerState.mk 7 []) (by decide) (by decide)).1,
   (C6_queue_full_drop (List.replicate 10 (SSID_t.mk "x")) (SSID_t.mk "y")
      (List.replicate 10 (LogMessage_t.mk "m")) (LogMessage_t.mk "m")
      (ScannerState.mk 7 []) (by decide) (by decide)).2.2.1⟩

/-! ### Task creation table in `app_main` (lines 123-126).
`xTaskCreate(task, name, stackDepth, NULL, priority, NULL)`; under FreeRTOS a
numerically larger `uxPriority` means a higher scheduling priority. -/

structure TaskCreate where
  name : String
  stackDepth : Nat
  priority : Nat
deriving DecidableEq, Repr

def app_main_tasks : List TaskCreate :=
  [TaskCreate.mk "ScannerTask" 2048 1,
   TaskCreate.mk "CheckerTask" 4096 2,
   TaskCreate.mk "LoggerTask" 2048 3,
   TaskCreate.mk "SupervisorTask" 2048 2]

/-- C5 (refuting the claim): `app_main` creates LoggerTask with priority 3,
the numerically largest of the four — i.e. the HIGHEST FreeRTOS scheduling
priority, not the lowest; ScannerTask (priority 1) is the unique lowest.
This contradicts both the spec sentence and the source's own header comment
(`LoggerTask (prioridade baixa)`, `ScannerTask (prioridade alta)`). -/
theorem C5_logger_priority_is_highest :
    app_main_tasks.map TaskCreate.priority = [1, 2, 3, 2] ∧
    (app_main_tasks.filter (fun t => t.name == "LoggerTask")).map TaskCreate.priority
      = [3] ∧
    app_main_tasks.all (fun t => t.priority ≤ 3) = true ∧
    (app_main_tasks.filter (fun t => decide (t.priority < 3))).map TaskCreate.name
      = ["ScannerTask", "CheckerTask", "SupervisorTask"] := by
  decide

/-! ### SupervisorTask (lines 108-113) and the shared program state.
The loop body contains only `vTaskDelay(pdMS_TO_TICKS(1000))` (plus a
comment); it reads and writes no shared state.  `SystemState` collects the
mutable state shared between tasks (the registry `secureNetworks` is a
`const` array, immutable by construction). -/

structure SystemState where
  ssidQueue : List SSID_t
  logQueue : List LogMessage_t
  alertCounter : Nat
  wdtLastReset : Nat
deriving DecidableEq, Repr

/-- One iteration of SupervisorTask's loop: the unchanged shared state
paired with the number of milliseconds slept. -/
def supervisorStep (s : SystemState) : SystemState × Nat :=
  (s, SUPERVISOR_DELAY_MS)

/-- C9: every Supervisor iteration only sleeps its fixed 1000 ms period and
leaves every piece of shared state — both queues, the alert counter and the
watchdog state — exactly as it found it. -/
theorem C9_supervisor_frame (s : SystemState) :
    (supervisorStep s).1 = s ∧
    (supervisorStep s).1.ssidQueue = s.ssidQueue ∧
    (supervisorStep s).1.logQueue = s.logQueue ∧
    (supervisorStep s).1.alertCounter = s.alertCounter ∧
    (supervisorStep s).1.wdtLastReset = s.wdtLastReset ∧
    (supervisorStep s).2 = 1000 :=
  ⟨rfl, rfl, rfl, rfl, rfl, rfl⟩

/-! ### Action trace of CheckerTask's loop (lines 81-94).
Per loop iteration whose `xQueueReceive` (infinite block, `portMAX_DELAY`)
returns an event: classify via `is_secure_network`, format the record,
`xQueueSend` it to `logQueue`, then `esp_task_wdt_reset()`, then
`vTaskDelay(5 ms)`.  When no event arrives the task stays blocked in
`xQueueReceive` and performs no action at all. -/

inductive CheckerAction where
  | receive : String → CheckerAction
  | classify : String → Bool → CheckerAction
  | sendLog : String → CheckerAction
  | wdtReset : CheckerAction
  | delay : Nat → CheckerAction
deriving DecidableEq, Repr

def isWdtReset : CheckerAction → Bool
  | CheckerAction.wdtReset => true
  | _ => false

/-- The ordered actions of one CheckerTask iteration that received `s`. -/
def checkerBlock (cnt : Nat) (s : String) : List CheckerAction :=
  [CheckerAction.receive s,
   CheckerAction.classify s (is_secure_network s != 0),
   CheckerAction.sendLog (checkerStep cnt s).2.message,
   CheckerAction.wdtReset,
   CheckerAction.delay CHECKER_DELAY_MS]

/-- The full action trace of CheckerTask over a finite delivered sequence. -/
def checkerTrace : Nat → List String → List CheckerAction
  | _, [] => []
  | cnt, s :: rest => checkerBlock cnt s ++ checkerTrace (checkerStep cnt s).1 rest

theorem checkerBlock_length (cnt : Nat) (s : String) :
    (checkerBlock cnt s).length = 5 := rfl

/-- C10: the trace contains exactly one watchdog refresh per received event
(none at all for an empty delivery period), and every refresh sits
immediately after the `sendLog` of its event, which itself sits immediately
after the event's classification. -/
theorem C10_wdt_refresh_once_per_event (cnt : Nat) (es : List String) :
    (checkerTrace cnt es).countP isWdtReset = es.length ∧
    checkerTrace cnt [] = [] ∧
    ∀ i : Nat, (checkerTrace cnt es)[i]? = some CheckerAction.wdtReset →
      2 ≤ i ∧
      (∃ s b, (checkerTrace cnt es)[i - 2]? = some (CheckerAction.classify s b)) ∧
      (∃ m, (checkerTrace cnt es)[i - 1]? = some (CheckerAction.sendLog m)) := by
  induction es generalizing cnt with
  | nil =>
      refine ⟨rfl, rfl, ?_⟩
      intro i hi
      simp [checkerTrace] at hi
  | cons e rest ih =>
      have ihr := ih (checkerStep cnt e).1
      refine ⟨?_, rfl, ?_⟩
      · rw [checkerTrace, List.countP_append, ihr.1]
        simp [checkerBlock, List.countP_cons, isWdtReset]
        omega
      · intro i hi
        by_cases h5 : i < 5
        · rw [checkerTrace,
            List.getElem?_append_left (by rw [checkerBlock_length]; omega)] at hi
          interval_cases i
          · simp [checkerBlock] at hi
          · simp [checkerBlock] at hi
          · simp [checkerBlock] at hi
          · refine ⟨by omega, ⟨e, is_secure_network e != 0, ?_⟩,
              ⟨(checkerStep cnt e).2.message, ?_⟩⟩
            · rw [checkerTrace,
                List.getElem?_append_left (by rw [checkerBlock_length]; omega)]
              rfl
            · rw [checkerTrace,
                List.getElem?_append_left (by rw [checkerBlock_length]; omega)]
              rfl
          · simp [checkerBlock] at hi
        · rw [checkerTrace,
            List.getElem?_append_right (by rw [checkerBlock_length]; omega)] at hi
          rw [checkerBlock_length] at hi
          have hrec := ihr.2.2 (i - 5) hi
          rcases hrec with ⟨h2, ⟨s, b, hc⟩, ⟨m, hm⟩⟩
          refine ⟨by omega, ⟨s, b, ?_⟩, ⟨m, ?_⟩⟩
          · rw [checkerTrace,
              List.getElem?_append_right (by rw [checkerBlock_length]; omega),
              checkerBlock_length]
            have : i - 2 - 5 = i - 5 - 2 := by omega
            rw [this]
            exact hc
          · rw [checkerTrace,
              List.getElem?_append_right (by rw [checkerBlock_length]; omega),
              checkerBlock_length]
            have : i - 1 - 5 = i - 5 - 1 := by omega
            rw [this]
            exact hm

/-- Closed witness for `C10_wdt_refresh_once_per_event`: one delivered
unauthorized event; the only refresh is at index 3, after the classify
(index 1) and the sendLog (index 2). -/
theorem C10_wdt_refresh_once_per_event_witness :
    (checkerTrace 0 ["EvilTwin"]).countP isWdtReset = 1 ∧
    2 ≤ 3 ∧
    (∃ s b, (checkerTrace 0 ["EvilTwin"])[3 - 2]? = some (CheckerAction.classify s b)) ∧
    (∃ m, (checkerTrace 0 ["EvilTwin"])[3 - 1]? = some (CheckerAction.sendLog m)) := by
  have h := C10_wdt_refresh_once_per_event 0 ["EvilTwin"]
  have h3 := h.2.2 3 (by decide)
  exact ⟨h.1, h3.1, h3.2.1, h3.2.2⟩

/-- Closed witness for `C2_one_record_per_event_in_order`: two delivered
events, the second unauthorized. -/
theorem C2_one_record_per_event_in_order_witness :
    (checkerRun 0 ["IoT_Secure", "EvilTwin"]).2.length = 2 ∧
    ∃ c, ((checkerRun 0 ["IoT_Secure", "EvilTwin"]).2)[1]? =
      some (LogMessage_t.mk (alertMessage "EvilTwin" c)) := by
  have h := C2_one_record_per_event_in_order 0 ["IoT_Secure", "EvilTwin"]
  exact ⟨h.1, (h.2 1 "EvilTwin" rfl).2 (by decide)⟩

/-! ### Payload well-formedness (claim C8).
Scanner fills the 32-byte `SSID_t.ssid` with `strncpy(dst, src, 32)`, which
NUL-terminates whenever the source is at most 31 bytes; Checker fills the
128-byte `LogMessage_t.message` with `snprintf(dst, 128, ...)`, which always
NUL-terminates and fits when the formatted text is at most 127 bytes.  The
lemmas below bound the UTF-8 byte size of every string the tasks enqueue. -/

theorem utf8ByteSize_append (a b : String) :
    (a ++ b).utf8ByteSize = a.utf8ByteSize + b.utf8ByteSize := by
  cases a with
  | mk as =>
      cases b with
      | mk bs =>
          show String.utf8ByteSize (String.mk (as ++ bs)) = _
          simp

theorem digitChar_utf8Size (d : Nat) : (Nat.digitChar d).utf8Size = 1 := by
  by_cases h : d < 16
  · have hb : ∀ e, e < 16 → (Nat.digitChar e).utf8Size = 1 := by decide
    exact hb d h
  · have hstar : Nat.digitChar d = '*' := by
      simp [Nat.digitChar, show d ≠ 0 by omega, show d ≠ 1 by omega, show d ≠ 2 by omega,
        show d ≠ 3 by omega, show d ≠ 4 by omega, show d ≠ 5 by omega, show d ≠ 6 by omega,
        show d ≠ 7 by omega, show d ≠ 8 by omega, show d ≠ 9 by omega, show d ≠ 10 by omega,
        show d ≠ 11 by omega, show d ≠ 12 by omega, show d ≠ 13 by omega, show d ≠ 14 by omega,
        show d ≠ 15 by omega]
    rw [hstar]
    decide

theorem toDigitsCore_ascii :
    ∀ (f n : Nat) (ds : List Char), (∀ c ∈ ds, c.utf8Size = 1) →
      ∀ c ∈ Nat.toDigitsCore 10 f n ds, c.utf8Size = 1 := by
  intro f
  induction f with
  | zero => intro n ds hds; exact hds
  | succ f ih =>
      intro n ds hds c hc
      rw [Nat.toDigitsCore] at hc
      by_cases hz : n / 10 = 0
      · rw [if_pos hz] at hc
        rcases List.mem_cons.mp hc with rfl | hmem
        · exact digitChar_utf8Size _
        · exact hds c hmem
      · rw [if_neg hz] at hc
        refine ih (n / 10) _ ?_ c hc
        intro x hx
        rcases List.mem_cons.mp hx with rfl | hmem
        · exact digitChar_utf8Size _
        · exact hds x hmem

theorem utf8Len_ascii (cs : List Char) (h : ∀ c ∈ cs, c.utf8Size = 1) :
    String.utf8Len cs = cs.length := by
  induction cs with
  | nil => rfl
  | cons c rest ih =>
      rw [String.utf8Len_cons, h c (List.mem_cons_self c rest), List.length_cons,
        ih fun x hx => h x (List.mem_cons_of_mem c hx)]

theorem repr_byteSize (n : Nat) :
    (Nat.repr n).utf8ByteSize = (Nat.repr n).length := by
  show (List.asString (Nat.toDigits 10 n)).utf8ByteSize = _
  rw [List.asString, String.utf8ByteSize_mk]
  have h := utf8Len_ascii (Nat.toDigits 10 n)
    (toDigitsCore_ascii (n + 1) n [] (by simp))
  rw [h]
  rfl

/-- C8: every enqueued payload fits its buffer NUL-terminated: each of the
six identifiers Scanner copies into the 32-byte `SSID_t` is at most 31 bytes,
and for any identifier honouring that buffer bound (and any counter value
`printf`'s `%d` can receive from a C `int`, i.e. below 10^10 digits-wise)
both formatted Checker messages are at most 127 bytes, fitting the 128-byte
`LogMessage_t` buffer. -/
theorem C8_payloads_well_formed (ssid : String) (cnt : Nat)
    (hs : ssid.utf8ByteSize ≤ 31) (hc : cnt < 10 ^ 10) :
    (∀ s ∈ demoSSIDs, s.utf8ByteSize ≤ 31) ∧
    (okMessage ssid).utf8ByteSize ≤ 127 ∧
    (alertMessage ssid cnt).utf8ByteSize ≤ 127 := by
  refine ⟨by decide, ?_, ?_⟩
  · rw [okMessage, utf8ByteSize_append]
    have : ("\x7bChecker\x7d [OK] Rede segura detectada: " : String).utf8ByteSize = 38 := by
      decide
    omega
  · rw [alertMessage, utf8ByteSize_append, utf8ByteSize_append, utf8ByteSize_append,
      utf8ByteSize_append, repr_byteSize]
    have h1 : ("\x7bChecker\x7d [ALERTA] Rede NÃO autorizada detectada: " : String).utf8ByteSize
        = 51 := by decide
    have h2 : (" (cont=" : String).utf8ByteSize = 7 := by decide
    have h3 : (")" : String).utf8ByteSize = 1 := by decide
    have h4 := Nat.repr_length cnt 10 (by omega) hc
    omega

/-- Closed witness for `C8_payloads_well_formed`. -/
theorem C8_payloads_well_formed_witness :
    ("EvilTwin" : String).utf8ByteSize ≤ 31 ∧ (7 : Nat) < 10 ^ 10 ∧
    (okMessage "EvilTwin").utf8ByteSize ≤ 127 ∧
    (alertMessage "EvilTwin" 7).utf8ByteSize ≤ 127 := by
  have h := C8_payloads_well_formed "EvilTwin" 7 (by decide) (by norm_num)
  exact ⟨by decide, by norm_num, h.2.1, h.2.2⟩

end GS
